import Mathlib

set_option maxHeartbeats 1000000

/-!
Shallow embedding of the Market Data & Analytics Core of OptiTrade
(`src/src/tools.py`, active code).  Python dicts are modelled as Lean
structures; a key that a given code path does not put into the dict is
modelled as an `Option` field with value `none`.  Machine floats are
modelled as exact rationals (`ℚ`) for the data pipeline and as reals
(`ℝ`) for the Black-Scholes model; failure paths of the Python code are
explicit constructors.
-/

namespace OptiTrade

/-- One leg of an option chain dict.  The simulated path sets
`iv` and no `symbol`; the live path sets `symbol` and no `iv`. -/
structure OptionLeg where
  strike : ℚ
  type : String
  last_price : ℚ
  volume : ℕ
  oi : ℕ
  iv : Option ℚ
  symbol : Option String
deriving Repr, DecidableEq

/-- The dict returned by the option-chain tools.  `warning` records whether a
"warning" key is present in the returned dict (`none` = key absent), which is
what downstream code would read. -/
structure ChainResult where
  status : String
  spot_price : ℚ
  atm_strike : ℚ
  option_chain : List OptionLeg
  expiry_date : String
  data_source : String
  warning : Option Bool
deriving Repr, DecidableEq

/-- Python `range(-10, 11)` as a list of integers. -/
def rangeNeg10To11 : List ℤ := (List.range 21).map (fun i => (i : ℤ) - 10)

/-- `_generate_simulated_option_chain` (tools.py lines 338-350): a ±10-strike
ladder in steps of 50 around `atm_strike`, a CE and a PE leg per strike, all
with last_price 100.0, volume 1000, oi 50000, iv 0.18.  The returned dict has
no "warning" key. -/
def generate_simulated_option_chain (spot_price : ℚ) (atm_strike : ℚ)
    (expiry_date : String) : ChainResult :=
  { status := "success"
    spot_price := spot_price
    atm_strike := atm_strike
    option_chain :=
      (rangeNeg10To11.map (fun i => atm_strike + (i : ℚ) * 50)).flatMap
        (fun s => ["CE", "PE"].map (fun t =>
          { strike := s, type := t, last_price := 100, volume := 1000,
            oi := 50000, iv := some (18/100), symbol := none }))
    expiry_date := expiry_date
    data_source := "simulated"
    warning := none }

/-- The chain shape asserted by the spec: for each of the 21 strikes
`atm − 500, atm − 450, …, atm + 500` one CE leg and one PE leg, each with
last_price 100.0, volume 1000, oi 50000, iv 0.18. -/
def claimSimChain (atm : ℚ) : List OptionLeg :=
  (List.range 21).flatMap (fun k =>
    [{ strike := atm - 500 + 50 * (k : ℚ), type := "CE", last_price := 100,
       volume := 1000, oi := 50000, iv := some (18/100), symbol := none },
     { strike := atm - 500 + 50 * (k : ℚ), type := "PE", last_price := 100,
       volume := 1000, oi := 50000, iv := some (18/100), symbol := none }])

theorem range21_eq : List.range 21 =
    [0x0, 1, 2, 3, 4, 5, 6, 7, 8, 9, 10, 11, 12, 13, 14, 15, 16, 17, 18, 19, 20] := rfl

/-- C10 -- The simulated option chain is a deterministic pure function of its
three inputs: it always has status "success", data_source "simulated", and its
chain is exactly the 42-leg ladder (a CE and a PE leg at each of the 21 strikes
atm−500, …, atm+500 in steps of 50, every leg with last_price 100.0, volume
1000, open interest 50000 and iv 0.18). -/
theorem simulated_chain_deterministic_ladder (spot atm : ℚ) (e : String) :
    (generate_simulated_option_chain spot atm e).status = "success" ∧
    (generate_simulated_option_chain spot atm e).data_source = "simulated" ∧
    (generate_simulated_option_chain spot atm e).option_chain.length = 42 ∧
    (generate_simulated_option_chain spot atm e).option_chain = claimSimChain atm := by
  refine ⟨rfl, rfl, ?_, ?_⟩ <;>
    simp [generate_simulated_option_chain, claimSimChain, rangeNeg10To11,
      range21_eq, List.flatMap] <;>
    norm_num <;> and_intros <;> ring

/-- C1 counterexample -- At the concrete fallback input (spot 24000, ATM 24000),
the simulated snapshot's returned dict has no "warning" key at all, so it does
not carry a warning flag set to true. -/
theorem simulated_chain_no_warning_key :
    (generate_simulated_option_chain 24000 24000 "2025-01-30").data_source = "simulated" ∧
    (generate_simulated_option_chain 24000 24000 "2025-01-30").warning ≠ some true := by
  exact ⟨rfl, by decide⟩

/-- C1 (amended) -- Every snapshot returned by the simulated-chain generator is
marked data_source = "simulated" (with status "success"), which is what
distinguishes it from a LIVE snapshot; the returned dict carries no "warning"
key. -/
theorem simulated_chain_marked_simulated (spot atm : ℚ) (e : String) :
    (generate_simulated_option_chain spot atm e).data_source = "simulated" ∧
    (generate_simulated_option_chain spot atm e).status = "success" ∧
    (generate_simulated_option_chain spot atm e).warning = none :=
  ⟨rfl, rfl, rfl⟩

/-! ## Backtest engine (`backtest_option_strategy`, tools.py lines 449-466) -/

/-- One OHLC bar as consumed by the analytics tools (the fields the active
code reads; `date` and `open` are never read). -/
structure Bar where
  close : ℚ
  high : ℚ
  low : ℚ
  volume : ℚ
deriving Repr, DecidableEq

/-- The loop body of the backtest: the P&L evaluated for the trade that exits
at close `exitClose`.  `pnl` starts at 0 and is only assigned for
"long_call". -/
def tradePnl (strategy_type : String) (strike premium exitClose : ℚ) : ℚ :=
  if strategy_type = "long_call" then max 0 (exitClose - strike) - premium else 0

/-- Result dict of `backtest_option_strategy`: either a bare failure dict or
success carrying `win_rate` and `total_trades`. -/
inductive BacktestResult where
  | failed
  | success (win_rate : ℚ) (total_trades : ℕ)
deriving Repr, DecidableEq

/-- `backtest_option_strategy` (tools.py lines 449-466).  The loop runs over
`i ∈ [0, len-2]` scoring `closes[i+1]`; wins are P&L strictly greater than 0;
the returned `win_rate` divides by `len(closes)` and `total_trades` is
`len(closes)` (the number of bars, not of entry/exit pairs). -/
def backtest_option_strategy (strategy_type : String) (historical_data : List Bar)
    (strike : ℚ) (premium : ℚ) : BacktestResult :=
  if historical_data = [] then .failed
  else
    let closes := historical_data.map Bar.close
    let wins := ((closes.drop 1).filter
      (fun c => 0 < tradePnl strategy_type strike premium c)).length
    .success ((wins : ℚ) / (closes.length : ℚ)) closes.length

/-- The close series [100, 110, 90, 130] of the spec's backtest example
(high/low/volume are not read by the backtest). -/
def c3Bars : List Bar :=
  [⟨100, 100, 100, 0⟩, ⟨110, 110, 110, 0⟩, ⟨90, 90, 90, 0⟩, ⟨130, 130, 130, 0⟩]

/-- C3 -- On the spec's example (long_call, closes [100,110,90,130], strike
105, premium 5) the per-pair P&L sequence is [0, −5, 20] with exactly one
strict win, but the code reports total_trades = 4 (the bar count, not the 3
entry/exit pairs) and win_rate = 1/4 (wins divided by the bar count), not the
claimed 3 trades and winRate 1/3. -/
theorem backtest_example_off_by_one :
    ((c3Bars.map Bar.close).drop 1).map (tradePnl "long_call" 105 5) = [0, -5, 20] ∧
    backtest_option_strategy "long_call" c3Bars 105 5 = .success (1/4) 4 ∧
    (1 : ℚ) / 4 ≠ 1 / 3 := by
  refine ⟨by norm_num [c3Bars, tradePnl, max_def], ?_, by norm_num⟩
  simp [backtest_option_strategy, c3Bars, tradePnl]
  norm_num [max_def]

/-! ## Session manager (`authenticate_angel`, tools.py lines 51-85) -/

/-- The module-global token triplet (`_auth_token`, `_feed_token`,
`_refresh_token`). -/
structure AuthState where
  auth_token : Option String
  feed_token : Option String
  refresh_token : Option String
deriving Repr, DecidableEq

/-- The response of the `generateSession` login exchange, already classified
the way the code classifies it: `ok` is a dict with truthy "status" (its
"data" sub-dict may or may not carry each token); `bad` is anything else (a
falsy-status dict, a bare string, or an exception raised by the call), with
the message the code would report. -/
inductive SessionResponse where
  | ok (jwt feed refresh : Option String)
  | bad (message : String)
deriving Repr, DecidableEq

/-- Python truthiness of one credential read from the environment:
`None` and the empty string are falsy. -/
def credOk : Option String → Bool
  | none => false
  | some s => s ≠ ""

/-- Outcome of one `authenticate_angel` call: the token triplet afterwards,
the returned "status" field, and whether a fresh credential + one-time-code
login exchange (`generateSession`) was performed. -/
structure AuthOutcome where
  state : AuthState
  status : String
  performedLogin : Bool
deriving Repr, DecidableEq

/-- `authenticate_angel` (tools.py lines 51-85).  `totp_ok` models whether
`pyotp.TOTP(totp_secret).now()` succeeds (it raises before any login exchange
on a malformed seed).  The code consults no clock, no TTL and none of the
cached tokens: the prior state `st` is only ever returned unchanged on
failure. -/
def authenticate_angel (api_key client_id mpin totp_secret : Option String)
    (totp_ok : Bool) (resp : SessionResponse) (st : AuthState) : AuthOutcome :=
  if ¬(credOk api_key ∧ credOk client_id ∧ credOk mpin ∧ credOk totp_secret) then
    { state := st, status := "failed", performedLogin := false }
  else if ¬totp_ok then
    { state := st, status := "failed", performedLogin := false }
  else
    match resp with
    | .ok jwt feed refresh =>
        { state := { auth_token := jwt, feed_token := feed, refresh_token := refresh },
          status := "success", performedLogin := true }
    | .bad _ => { state := st, status := "failed", performedLogin := true }

/-- A cached triplet representing a previously valid session. -/
def cachedValidState : AuthState :=
  { auth_token := some "jwt0", feed_token := some "feed0", refresh_token := some "ref0" }

/-- C4 counterexample -- With every credential present and a prior valid cached
token triplet — i.e. elapsed 0 ≤ any TTL and prior status valid, a situation in
which the claim says no new login may happen — `authenticate_angel` still
performs a fresh login exchange and overwrites the cached triplet: the code
consults no TTL and never returns the cached session. -/
theorem authenticate_always_logs_in_counterexample :
    (authenticate_angel (some "k") (some "c") (some "m") (some "s") true
      (.ok (some "jwt1") (some "feed1") (some "ref1")) cachedValidState).performedLogin
      = true ∧
    (authenticate_angel (some "k") (some "c") (some "m") (some "s") true
      (.ok (some "jwt1") (some "feed1") (some "ref1")) cachedValidState).state
      ≠ cachedValidState := by
  exact ⟨rfl, by decide⟩

/-- C4 (amended) -- `authenticate_angel` has no session cache or TTL logic: it
performs a fresh credential + one-time-code login exchange exactly when all
four credentials are present (truthy) and the one-time code can be generated,
irrespective of any prior token state or elapsed time; and the resulting
triplet is either the prior one unchanged (on any failure) or the one from the
fresh login response, never a field-by-field mixture. -/
theorem authenticate_login_iff_credentials (k c m t : Option String)
    (totp_ok : Bool) (resp : SessionResponse) (st st' : AuthState) :
    ((authenticate_angel k c m t totp_ok resp st).performedLogin
       = (credOk k && credOk c && credOk m && credOk t && totp_ok)) ∧
    ((authenticate_angel k c m t totp_ok resp st).performedLogin
       = (authenticate_angel k c m t totp_ok resp st').performedLogin) ∧
    ((authenticate_angel k c m t totp_ok resp st).state = st ∨
      ∃ jwt feed refresh, resp = .ok jwt feed refresh ∧
        (authenticate_angel k c m t totp_ok resp st).state
          = { auth_token := jwt, feed_token := feed, refresh_token := refresh }) := by
  unfold authenticate_angel
  rcases resp with ⟨jwt, feed, refresh⟩ | msg <;>
    rcases totp_ok <;>
    by_cases h : credOk k ∧ credOk c ∧ credOk m ∧ credOk t <;>
    simp_all

/-! ## Technical indicator engine (`calculate_technical_indicators`,
tools.py lines 356-415)

Columns are lists of exact rationals; a pandas `NaN` cell is modelled as
`none` where the code can read one (the RSI, whose 0/0 case is NaN, and
rolling means over too-short columns).  The Bollinger columns of the source
are computed into the frame but never read (their `std` is also irrational),
so they have no observable effect and are not embedded. -/

/-- `Series.ewm(span, adjust=False).mean()` after the first element:
`y_t = (1−α)·y_{t−1} + α·x_t`. -/
def ewmaFrom (a : ℚ) (e : ℚ) : List ℚ → List ℚ
  | [] => []
  | x :: xs => ((1 - a) * e + a * x) :: ewmaFrom a ((1 - a) * e + a * x) xs

/-- `Series.ewm(span=n, adjust=False).mean()` with `α = 2/(n+1)`, seeded with
the first value. -/
def ewma (span : ℕ) (xs : List ℚ) : List ℚ :=
  match xs with
  | [] => []
  | x :: rest => x :: ewmaFrom (2 / ((span : ℚ) + 1)) x rest

/-- `Series.diff()`: leading NaN, then successive differences. -/
def diffCol : List ℚ → List (Option ℚ)
  | [] => []
  | x :: xs => none :: List.zipWith (fun b a => some (b - a)) xs (x :: xs)

/-- `delta.where(delta > 0, 0)`: keep positive deltas, everything else
(including the leading NaN) becomes 0. -/
def gainCol (deltas : List (Option ℚ)) : List ℚ :=
  deltas.map (fun d => match d with
    | some v => if 0 < v then v else 0
    | none => 0)

/-- `-delta.where(delta < 0, 0)`: magnitude of negative deltas, everything
else becomes 0. -/
def lossCol (deltas : List (Option ℚ)) : List ℚ :=
  deltas.map (fun d => match d with
    | some v => if v < 0 then -v else 0
    | none => 0)

/-- Final cell of `Series.rolling(k).mean()`: NaN (`none`) when fewer than `k`
rows exist, otherwise the mean of the last `k` values. -/
def rollMeanLast (k : ℕ) (xs : List ℚ) : Option ℚ :=
  if xs.length < k ∨ k = 0 then none
  else some ((xs.drop (xs.length - k)).sum / (k : ℚ))

/-- Final cell of the RSI column `100 − 100/(1+rs)` with `rs = gain/loss` in
float semantics: `loss = 0, gain > 0` gives `rs = ∞` hence RSI 100;
`loss = gain = 0` gives NaN. -/
def rsiLast (closes : List ℚ) : Option ℚ :=
  match rollMeanLast 14 (gainCol (diffCol closes)),
        rollMeanLast 14 (lossCol (diffCol closes)) with
  | some g, some l =>
      if l = 0 then (if g = 0 then none else some 100)
      else some (100 - 100 / (1 + g / l))
  | _, _ => none

/-- The MACD column `EMA12 − EMA26` (pointwise). -/
def macdCol (closes : List ℚ) : List ℚ :=
  List.zipWith (fun a b => a - b) (ewma 12 closes) (ewma 26 closes)

/-- `macd_signal`: EMA9 of the MACD column.  Computed by the source but never
read by its signal logic. -/
def macdSignalCol (closes : List ℚ) : List ℚ :=
  ewma 9 (macdCol closes)

/-- The true-range column: `max(h−l, |h−prevClose|, |l−prevClose|)`; at the
first row the shifted cells are NaN, which `DataFrame.max` skips, leaving
`h−l`. -/
def trCol : List Bar → List ℚ
  | [] => []
  | b :: rest =>
      (b.high - b.low) ::
        List.zipWith (fun cur prev =>
          max (cur.high - cur.low)
            (max |cur.high - prev.close| |cur.low - prev.close|)) rest (b :: rest)

/-- `Series.min()` over a nonempty column (0 as junk value for empty). -/
def colMin : List ℚ → ℚ
  | [] => 0
  | x :: xs => xs.foldl min x

/-- `Series.max()` over a nonempty column (0 as junk value for empty). -/
def colMax : List ℚ → ℚ
  | [] => 0
  | x :: xs => xs.foldl max x

/-- The "indicators" sub-dict of the returned value. -/
structure IndicatorValues where
  rsi : Option ℚ
  macd : ℚ
  ema_20 : ℚ
  atr : Option ℚ
deriving Repr, DecidableEq

/-- The "key_levels" sub-dict of the returned value. -/
structure KeyLevels where
  support : ℚ
  resistance : ℚ
deriving Repr, DecidableEq

/-- Result dict of `calculate_technical_indicators`: the insufficient-data
failure dict (which carries no indicator values) or the success dict. -/
inductive TechResult where
  | insufficient_data
  | success (signal : String) (confidence : ℚ) (indicators : IndicatorValues)
      (key_levels : KeyLevels) (trend : String)
deriving Repr, DecidableEq

/-- `calculate_technical_indicators` (tools.py lines 356-415).  Note the
active code's classification: trend is "bullish" only on strict EMA5 > EMA20
and "bearish" otherwise (no neutral case); the signal tests only trend and
RSI (a NaN RSI fails both comparisons); confidence is the constant 0.75. -/
def calculate_technical_indicators (historical_data : List Bar) : TechResult :=
  if historical_data.length < 20 then .insufficient_data
  else
    let closes := historical_data.map Bar.close
    let ema_5 := (ewma 5 closes).getLastD 0
    let ema_20 := (ewma 20 closes).getLastD 0
    let rsi := rsiLast closes
    let macd := (macdCol closes).getLastD 0
    let atr := rollMeanLast 14 (trCol historical_data)
    let trend := if ema_20 < ema_5 then "bullish" else "bearish"
    let rsiBelow70 : Bool := match rsi with
      | some v => decide (v < 70)
      | none => false
    let rsiAbove30 : Bool := match rsi with
      | some v => decide (30 < v)
      | none => false
    let signal :=
      if trend = "bullish" ∧ rsiBelow70 = true then "bullish"
      else if trend = "bearish" ∧ rsiAbove30 = true then "bearish"
      else "neutral"
    .success signal (3/4)
      { rsi := rsi, macd := macd, ema_20 := ema_20, atr := atr }
      { support := colMin (historical_data.map Bar.low),
        resistance := colMax (historical_data.map Bar.high) }
      trend

/-- A 20-bar constant series: close 100, high 101, low 99 on every bar. -/
def constBars20 : List Bar := List.replicate 20 ⟨100, 101, 99, 0⟩

/-- A 19-bar constant series. -/
def constBars19 : List Bar := List.replicate 19 ⟨100, 101, 99, 0⟩

/-- C5 counterexample -- On a 20-bar constant series EMA5 = EMA20 = 100, yet
the code classifies the trend as "bearish", not the claimed "neutral"; and the
signal is "neutral" while the returned confidence is 0.75, not the claimed
0.5 for a neutral signal. -/
theorem indicators_const_series_counterexample :
    (ewma 5 (constBars20.map Bar.close)).getLastD 0
      = (ewma 20 (constBars20.map Bar.close)).getLastD 0 ∧
    calculate_technical_indicators constBars20
      = .success "neutral" (3/4) ⟨none, 0, 100, some 2⟩ ⟨99, 101⟩ "bearish" ∧
    ("bearish" : String) ≠ "neutral" ∧ (3/4 : ℚ) ≠ 1/2 := by
  have hb : constBars20 = List.replicate 20 ⟨100, 101, 99, 0⟩ := rfl
  refine ⟨?_, ?_, by decide, by norm_num⟩ <;>
    norm_num [hb, List.replicate, calculate_technical_indicators, ewma, ewmaFrom,
      rsiLast, rollMeanLast, gainCol, lossCol, diffCol, macdCol, trCol,
      colMin, colMax]

/-- C5 (amended) -- For every series of at least 20 bars the engine returns a
success value whose trend is "bullish" exactly when EMA5 > EMA20 at the last
bar and "bearish" otherwise (equality included — there is no neutral trend);
whose signal is "bullish" iff the trend is bullish and the final RSI is
defined and < 70, "bearish" iff the trend is bearish and the final RSI is
defined and > 30, and "neutral" otherwise (the MACD/signal-line comparison is
not consulted); and whose confidence is 0.75 for every signal, directional or
neutral. -/
theorem tech_trend_signal_confidence (data : List Bar) (h : 20 ≤ data.length) :
    ∃ sig iv kl trend,
      calculate_technical_indicators data = .success sig (3/4) iv kl trend ∧
      trend = (if (ewma 20 (data.map Bar.close)).getLastD 0
                  < (ewma 5 (data.map Bar.close)).getLastD 0
               then "bullish" else "bearish") ∧
      (sig = "bullish" ↔ trend = "bullish" ∧
        ∃ v, rsiLast (data.map Bar.close) = some v ∧ v < 70) ∧
      (sig = "bearish" ↔ trend = "bearish" ∧
        ∃ v, rsiLast (data.map Bar.close) = some v ∧ 30 < v) ∧
      (sig = "bullish" ∨ sig = "bearish" ∨ sig = "neutral") := by
  unfold calculate_technical_indicators
  rw [if_neg (by omega)]
  refine ⟨_, _, _, _, rfl, rfl, ?_, ?_, ?_⟩ <;>
    rcases hrsi : rsiLast (data.map Bar.close) with _ | v <;>
    simp only [hrsi] <;>
    split_ifs <;>
    simp_all

/-- C5 witness -- the amended classification instantiated on the concrete
20-bar constant series. -/
theorem tech_trend_signal_confidence_witness :
    ∃ sig iv kl trend,
      calculate_technical_indicators constBars20 = .success sig (3/4) iv kl trend ∧
      trend = (if (ewma 20 (constBars20.map Bar.close)).getLastD 0
                  < (ewma 5 (constBars20.map Bar.close)).getLastD 0
               then "bullish" else "bearish") ∧
      (sig = "bullish" ↔ trend = "bullish" ∧
        ∃ v, rsiLast (constBars20.map Bar.close) = some v ∧ v < 70) ∧
      (sig = "bearish" ↔ trend = "bearish" ∧
        ∃ v, rsiLast (constBars20.map Bar.close) = some v ∧ 30 < v) ∧
      (sig = "bullish" ∨ sig = "bearish" ∨ sig = "neutral") :=
  tech_trend_signal_confidence constBars20 (by norm_num [constBars20])

/-- C8 -- On fewer than 20 bars (the empty series included) the indicator
engine returns the bare insufficient-data failure dict, which carries no
indicator values; on 20 or more bars it never returns that failure. -/
theorem tech_insufficient_iff (data : List Bar) :
    (data.length < 20 → calculate_technical_indicators data = .insufficient_data) ∧
    (20 ≤ data.length → calculate_technical_indicators data ≠ .insufficient_data) := by
  constructor <;> intro h <;> unfold calculate_technical_indicators
  · rw [if_pos h]
  · rw [if_neg (by omega)]
    simp

/-- C8 witness -- a 19-bar series fails with insufficient data; a 20-bar
series does not. -/
theorem tech_insufficient_witness :
    calculate_technical_indicators constBars19 = .insufficient_data ∧
    calculate_technical_indicators constBars20 ≠ .insufficient_data :=
  ⟨(tech_insufficient_iff constBars19).1 (by norm_num [constBars19]),
   (tech_insufficient_iff constBars20).2 (by norm_num [constBars20])⟩

/-! ## Instrument resolution inside `get_angel_option_chain`
(tools.py lines 273-297) -/

/-- Does `needle` match the head of `hay`? -/
def leadMatch : List Char → List Char → Bool
  | [], _ => true
  | _ :: _, [] => false
  | a :: as, b :: bs => a = b && leadMatch as bs

/-- Python's `needle in hay` on strings: `needle` occurs contiguously in
`hay`. -/
def strContains (needle : List Char) : List Char → Bool
  | [] => leadMatch needle []
  | c :: rest => leadMatch needle (c :: rest) || strContains needle rest

/-- Value of a decimal digit character. -/
def digitVal (c : Char) : ℕ := c.toNat - 48

def isLeapYear (y : ℕ) : Bool := y % 4 = 0 && (y % 100 ≠ 0 || y % 400 = 0)

def daysInMonth (y m : ℕ) : ℕ :=
  if m = 2 then (if isLeapYear y then 29 else 28)
  else if m = 4 ∨ m = 6 ∨ m = 9 ∨ m = 11 then 30
  else 31

/-- The calendar validation `datetime.strptime` performs when building the
date (`datetime.MINYEAR` is 1, so a year 0000 also raises). -/
def validDate (y m d : ℕ) : Bool :=
  1 ≤ y && 1 ≤ m && m ≤ 12 && 1 ≤ d && d ≤ daysInMonth y m

/-- Abbreviated month-name lookup, case-insensitive (the code title-cases the
raw string and `strptime`'s `%b` matching is itself case-insensitive). -/
def monthNum (cs : List Char) : Option ℕ :=
  let l := cs.map Char.toLower
  if l = "jan".toList then some 1 else if l = "feb".toList then some 2
  else if l = "mar".toList then some 3 else if l = "apr".toList then some 4
  else if l = "may".toList then some 5 else if l = "jun".toList then some 6
  else if l = "jul".toList then some 7 else if l = "aug".toList then some 8
  else if l = "sep".toList then some 9 else if l = "oct".toList then some 10
  else if l = "nov".toList then some 11 else if l = "dec".toList then some 12
  else none

/-- `datetime.strptime(s, "%d%b%Y").date()` as a (year, month, day) triple:
a 1- or 2-digit day, a 3-letter month name matched regardless of case, a
4-digit year, calendar-validated; `none` models the `ValueError` the per-row
`except: continue` swallows. -/
def parseExpiryDMY (s : String) : Option (ℕ × ℕ × ℕ) :=
  match s.toList with
  | [d1, d2, m1, m2, m3, y1, y2, y3, y4] =>
      if d1.isDigit && d2.isDigit && y1.isDigit && y2.isDigit && y3.isDigit
          && y4.isDigit then
        match monthNum [m1, m2, m3] with
        | some m =>
            let d := 10 * digitVal d1 + digitVal d2
            let y := 1000 * digitVal y1 + 100 * digitVal y2 + 10 * digitVal y3
              + digitVal y4
            if validDate y m d then some (y, m, d) else none
        | none => none
      else none
  | [d1, m1, m2, m3, y1, y2, y3, y4] =>
      if d1.isDigit && y1.isDigit && y2.isDigit && y3.isDigit && y4.isDigit then
        match monthNum [m1, m2, m3] with
        | some m =>
            let d := digitVal d1
            let y := 1000 * digitVal y1 + 100 * digitVal y2 + 10 * digitVal y3
              + digitVal y4
            if validDate y m d then some (y, m, d) else none
        | none => none
      else none
  | _ => none

/-- The components of a character list split on '-' (the literal dashes of
the `"%Y-%m-%d"` pattern). -/
def splitOnDash : List Char → List (List Char)
  | [] => [[]]
  | c :: rest =>
      if c = '-' then [] :: splitOnDash rest
      else
        match splitOnDash rest with
        | [] => [[c]]
        | h :: t => (c :: h) :: t

def digitsOnly (cs : List Char) : Bool := cs.all Char.isDigit

def natOfDigits (cs : List Char) : ℕ :=
  cs.foldl (fun n c => 10 * n + digitVal c) 0

/-- `datetime.strptime(s, "%Y-%m-%d").date()`: CPython compiles the format to
a regex with exactly four digits for `%Y` and one- or two-digit groups for
`%m` and `%d`, so non-zero-padded forms such as "2025-1-9" also parse;
out-of-range components, a missing dash, or trailing characters raise the
`ValueError` the caller's `except` turns into the simulated branch (`none`
here). -/
def parseIsoDate (s : String) : Option (ℕ × ℕ × ℕ) :=
  match splitOnDash s.toList with
  | [ys, ms, ds] =>
      if ys.length = 4 && digitsOnly ys
          && (ms.length = 1 || ms.length = 2) && digitsOnly ms
          && (ds.length = 1 || ds.length = 2) && digitsOnly ds then
        let y := natOfDigits ys
        let m := natOfDigits ms
        let d := natOfDigits ds
        if validDate y m d then some (y, m, d) else none
      else none
  | _ => none

/-- The strptime acceptances and rejections the iso parser must mirror:
non-zero-padded month/day parse like the padded form; a month of 13, a
calendar-invalid day, and a malformed string are ValueErrors. -/
theorem parseIsoDate_matches_strptime :
    parseIsoDate "2025-1-9" = some (2025, 1, 9) ∧
    parseIsoDate "2025-01-09" = some (2025, 1, 9) ∧
    parseIsoDate "2025-13-09" = none ∧
    parseIsoDate "2025-02-30" = none ∧
    parseIsoDate "garbage" = none := by decide

/-- One row of the bulk instrument master as the filter reads it.  `strike`
is the parsed value of the raw strike string (`none` models a string
`float()` rejects, which the per-row `except: continue` skips). -/
structure Instrument where
  token : String
  name : String
  instrumenttype : String
  expiry : String
  strike : Option ℚ
  symbol : String
deriving Repr, DecidableEq

/-- The value stored in `token_map` for one resolved instrument. -/
structure TokenInfo where
  strike : ℚ
  symbol : String
  type : String
deriving Repr, DecidableEq

/-- The loop body of the token filter (tools.py 283-294): skip unless the
type is OPTIDX and the upper-cased name contains NIFTY; skip rows whose
expiry fails to parse or differs from the target date; normalise minor-unit
strikes (divide by 100 above 50000); keep strikes inside the band. -/
def normStrike (s0 : ℚ) : ℚ := if s0 > 50000 then s0 / 100 else s0

/-- `"CE" if "CE" in symbol else "PE"`. -/
def ceOrPe (symbol : String) : String :=
  if strContains "CE".toList symbol.toList then "CE" else "PE"

def instPasses (inst : Instrument) (target : ℕ × ℕ × ℕ) (min_s max_s : ℚ) :
    Option (String × TokenInfo) :=
  if inst.instrumenttype ≠ "OPTIDX"
      ∨ strContains "NIFTY".toList (inst.name.toList.map Char.toUpper) = false then none
  else
    match parseExpiryDMY inst.expiry with
    | none => none
    | some dt =>
        if dt ≠ target then none
        else
          match inst.strike with
          | none => none
          | some s0 =>
              if min_s ≤ normStrike s0 ∧ normStrike s0 ≤ max_s then
                some (inst.token,
                  { strike := normStrike s0, symbol := inst.symbol,
                    type := ceOrPe inst.symbol })
              else none

/-- Python-dict insertion: overwrite an existing key in place, else append. -/
def insertAssoc (m : List (String × TokenInfo)) (k : String) (v : TokenInfo) :
    List (String × TokenInfo) :=
  match m with
  | [] => [(k, v)]
  | (k0, v0) :: rest =>
      if k0 = k then (k, v) :: rest else (k0, v0) :: insertAssoc rest k v

/-- The `token_map` built by the filter loop over the instrument master. -/
def resolveTokenMap (master : List Instrument) (target : ℕ × ℕ × ℕ)
    (min_s max_s : ℚ) : List (String × TokenInfo) :=
  master.foldl (fun m inst =>
    match instPasses inst target min_s max_s with
    | some (k, v) => insertAssoc m k v
    | none => m) []

theorem mem_insertAssoc {m : List (String × TokenInfo)} {k : String}
    {v : TokenInfo} {p : String × TokenInfo} (h : p ∈ insertAssoc m k v) :
    p = (k, v) ∨ p ∈ m := by
  induction m with
  | nil => simpa [insertAssoc] using h
  | cons q rest ih =>
      obtain ⟨k0, v0⟩ := q
      by_cases hk : k0 = k <;> simp [insertAssoc, hk] at h <;>
        rcases h with h | h <;> simp [h] <;>
        rcases ih h with h' | h' <;> simp [h']

theorem mem_resolveTokenMap_aux (master : List Instrument) (target : ℕ × ℕ × ℕ)
    (min_s max_s : ℚ) (acc : List (String × TokenInfo)) (p : String × TokenInfo)
    (h : p ∈ master.foldl (fun m inst =>
      match instPasses inst target min_s max_s with
      | some (k, v) => insertAssoc m k v
      | none => m) acc) :
    p ∈ acc ∨ ∃ inst ∈ master, instPasses inst target min_s max_s = some p := by
  induction master generalizing acc with
  | nil => exact .inl h
  | cons i rest ih =>
      simp only [List.foldl_cons] at h
      rcases hpass : instPasses i target min_s max_s with _ | q <;>
        rw [hpass] at h
      · rcases ih _ h with h' | ⟨j, hj, hq⟩
        · exact .inl h'
        · exact .inr ⟨j, by simp [hj], hq⟩
      · rcases ih _ h with h' | ⟨j, hj, hq⟩
        · rcases mem_insertAssoc h' with h'' | h''
          · exact .inr ⟨i, by simp, by rw [hpass, h'']⟩
          · exact .inl h''
        · exact .inr ⟨j, by simp [hj], hq⟩

theorem instPasses_spec {inst : Instrument} {target : ℕ × ℕ × ℕ}
    {min_s max_s : ℚ} {p : String × TokenInfo}
    (h : instPasses inst target min_s max_s = some p) :
    inst.instrumenttype = "OPTIDX" ∧
    parseExpiryDMY inst.expiry = some target ∧
    (∃ s0, inst.strike = some s0 ∧ p.2.strike = normStrike s0) ∧
    min_s ≤ p.2.strike ∧ p.2.strike ≤ max_s := by
  unfold instPasses at h
  split at h
  · exact absurd h (by simp)
  · rename_i h1
    rcases hdt : parseExpiryDMY inst.expiry with _ | dt <;> rw [hdt] at h
    · exact absurd h (by simp)
    · simp only [] at h
      split at h
      · exact absurd h (by simp)
      · rename_i h2
        rcases hs : inst.strike with _ | s0 <;> rw [hs] at h
        · exact absurd h (by simp)
        · simp only [] at h
          split at h
          · rename_i h3
            push_neg at h1 h2
            subst h2
            obtain rfl := Option.some.inj h
            exact ⟨h1.1, rfl, ⟨s0, rfl, rfl⟩, h3.1, h3.2⟩
          · exact absurd h (by simp)

/-- C6 -- Every entry of the built token map comes from a master row whose
instrument type is OPTIDX, whose expiry string parses (case-insensitively) to
exactly the requested date, and whose normalised strike (divided by 100 when
above 50000) lies in [center−500, center+500]; when no row passes the filter
the map is empty rather than an error; and the expiry match ignores the raw
string's case ("09OCT2025", "09Oct2025" and "09oct2025" all parse to
2025-10-09). -/
theorem resolve_filters_only_matching (master : List Instrument)
    (target : ℕ × ℕ × ℕ) (center : ℚ) :
    (∀ p ∈ resolveTokenMap master target (center - 500) (center + 500),
      ∃ inst ∈ master,
        inst.instrumenttype = "OPTIDX" ∧
        parseExpiryDMY inst.expiry = some target ∧
        (∃ s0, inst.strike = some s0 ∧ p.2.strike = normStrike s0) ∧
        center - 500 ≤ p.2.strike ∧ p.2.strike ≤ center + 500) ∧
    ((∀ inst ∈ master, instPasses inst target (center - 500) (center + 500) = none)
      → resolveTokenMap master target (center - 500) (center + 500) = []) ∧
    (parseExpiryDMY "09OCT2025" = some (2025, 10, 9) ∧
     parseExpiryDMY "09Oct2025" = some (2025, 10, 9) ∧
     parseExpiryDMY "09oct2025" = some (2025, 10, 9)) := by
  refine ⟨?_, ?_, by decide, by decide, by decide⟩
  · intro p hp
    rcases mem_resolveTokenMap_aux master target (center - 500) (center + 500) [] p
        hp with h | ⟨inst, hmem, hpass⟩
    · exact absurd h (by simp)
    · obtain ⟨h1, h2, h3, h4, h5⟩ := instPasses_spec hpass
      exact ⟨inst, hmem, h1, h2, h3, h4, h5⟩
  · intro hnone
    induction master with
    | nil => rfl
    | cons i rest ih =>
        unfold resolveTokenMap
        simp only [List.foldl_cons, hnone i (by simp)]
        exact ih (fun j hj => hnone j (by simp [hj]))

/-- Fixture row: a matching index-option instrument with a minor-unit
strike. -/
def fixtureInst1 : Instrument :=
  { token := "58000", name := "NIFTY", instrumenttype := "OPTIDX",
    expiry := "09OCT2025", strike := some 2400000, symbol := "NIFTY24000CE" }

/-- Fixture row: a futures instrument the filter must skip. -/
def fixtureInst2 : Instrument :=
  { token := "58001", name := "NIFTY", instrumenttype := "FUTIDX",
    expiry := "09OCT2025", strike := some 2400000, symbol := "NIFTY25OCTFUT" }

/-- A two-row fixture master: one matching OPTIDX row and one futures row. -/
def fixtureMaster : List Instrument := [fixtureInst1, fixtureInst2]

theorem fixture_pass1 :
    instPasses fixtureInst1 (2025, 10, 9) ((24000 : ℚ) - 500) ((24000 : ℚ) + 500)
      = some ("58000", TokenInfo.mk 24000 "NIFTY24000CE" "CE") := by
  have hparse : parseExpiryDMY "09OCT2025" = some (2025, 10, 9) := by decide
  have hce : ceOrPe "NIFTY24000CE" = "CE" := by decide
  have hns : normStrike 2400000 = 24000 := by norm_num [normStrike]
  simp [instPasses, fixtureInst1, hparse, hce, hns]
  decide

theorem fixture_pass2 :
    instPasses fixtureInst2 (2025, 10, 9) ((24000 : ℚ) - 500) ((24000 : ℚ) + 500)
      = none := by
  simp [instPasses, fixtureInst2]

theorem fixture_resolved :
    resolveTokenMap fixtureMaster (2025, 10, 9) ((24000 : ℚ) - 500) ((24000 : ℚ) + 500)
      = [("58000", TokenInfo.mk 24000 "NIFTY24000CE" "CE")] := by
  simp [resolveTokenMap, fixtureMaster, fixture_pass1, fixture_pass2, insertAssoc]

/-- C6 witness -- the filter theorem instantiated on the fixture master (whose
minor-unit strike 2400000 normalises to 24000 ∈ [23500, 24500]) and the
no-match guarantee instantiated on the empty master. -/
theorem resolve_filters_witness :
    (∃ inst ∈ fixtureMaster,
      inst.instrumenttype = "OPTIDX" ∧
      parseExpiryDMY inst.expiry = some (2025, 10, 9) ∧
      (∃ s0, inst.strike = some s0 ∧
        (("58000", TokenInfo.mk 24000 "NIFTY24000CE" "CE") :
          String × TokenInfo).2.strike = normStrike s0) ∧
      (24000 : ℚ) - 500 ≤ (("58000", TokenInfo.mk 24000 "NIFTY24000CE" "CE") :
          String × TokenInfo).2.strike ∧
      (("58000", TokenInfo.mk 24000 "NIFTY24000CE" "CE") :
          String × TokenInfo).2.strike ≤ (24000 : ℚ) + 500) ∧
    resolveTokenMap [] (2025, 10, 9) ((24000 : ℚ) - 500) ((24000 : ℚ) + 500) = [] :=
  ⟨(resolve_filters_only_matching fixtureMaster (2025, 10, 9) 24000).1
      ("58000", TokenInfo.mk 24000 "NIFTY24000CE" "CE")
      (by rw [fixture_resolved]; simp),
   (resolve_filters_only_matching [] (2025, 10, 9) 24000).2.1
      (by intro _ h; exact absurd h (by simp))⟩

/-! ## Option-chain snapshot fetcher (`get_angel_option_chain`,
tools.py lines 252-336) -/

/-- The external world one `get_angel_option_chain` call observes: the spot
fetch (`none` iff `get_angel_ltp` did not return success), the cached
instrument master after the ensure-download step, and the batch LTP response
(`none` iff the response is not a truthy structured dict, otherwise its
"fetched" rows as (symbolToken, ltp) pairs). -/
structure ChainEnv where
  ltp : Option ℚ
  master : List Instrument
  batch : Option (List (String × ℚ))

/-- Python's builtin `round` (banker's rounding, ties to even). -/
def pyRound (q : ℚ) : ℤ :=
  if q - ⌊q⌋ < 1/2 then ⌊q⌋
  else if 1/2 < q - ⌊q⌋ then ⌊q⌋ + 1
  else if ⌊q⌋ % 2 = 0 then ⌊q⌋ else ⌊q⌋ + 1

/-- `round(spot_price / 50) * 50`. -/
def atmOf (spot : ℚ) : ℚ := (pyRound (spot / 50) : ℚ) * 50

/-- First-match association lookup (`t in token_map` / `token_map[t]`; the
map's keys are unique by construction of `insertAssoc`). -/
def lookupAssoc : List (String × TokenInfo) → String → Option TokenInfo
  | [], _ => none
  | (k, v) :: rest, t => if k = t then some v else lookupAssoc rest t

/-- Assembly of the live legs from the batch response (tools.py 303-316):
nothing on an invalid response; otherwise one leg per fetched row whose
symbolToken was resolved, with volume and oi hard-coded to 0. -/
def buildLiveChain (batch : Option (List (String × ℚ)))
    (token_map : List (String × TokenInfo)) : List OptionLeg :=
  match batch with
  | none => []
  | some items => items.filterMap (fun it =>
      match lookupAssoc token_map it.1 with
      | some d => some { strike := d.strike, type := d.type, last_price := it.2,
                         volume := 0, oi := 0, iv := none, symbol := some d.symbol }
      | none => none)

/-- The instrument-resolution step as a function of the raw expiry string: an
unparseable expiry resolves to the empty mapping (the code simulates without
filtering in that case, and no instrument row can match an unparseable
date). -/
def resolveForExpiry (master : List Instrument) (expiry_date : String)
    (atm : ℚ) : List (String × TokenInfo) :=
  match parseIsoDate expiry_date with
  | none => []
  | some target => resolveTokenMap master target (atm - 500) (atm + 500)

/-- `get_angel_option_chain` (tools.py 252-336): spot fetch failure falls back
to a simulated chain at 24000; then ATM = round(spot/50)·50; an unparseable
expiry, an empty token map, or an empty assembled chain each fall back to a
simulated chain at (spot, atm); otherwise the live snapshot is returned. -/
def get_angel_option_chain (env : ChainEnv) (expiry_date : String) : ChainResult :=
  match env.ltp with
  | none => generate_simulated_option_chain 24000 24000 expiry_date
  | some spot =>
      match parseIsoDate expiry_date with
      | none => generate_simulated_option_chain spot (atmOf spot) expiry_date
      | some target =>
          if resolveTokenMap env.master target (atmOf spot - 500) (atmOf spot + 500)
              = [] then
            generate_simulated_option_chain spot (atmOf spot) expiry_date
          else if buildLiveChain env.batch
              (resolveTokenMap env.master target (atmOf spot - 500) (atmOf spot + 500))
              = [] then
            generate_simulated_option_chain spot (atmOf spot) expiry_date
          else
            { status := "success", spot_price := spot, atm_strike := atmOf spot,
              option_chain := buildLiveChain env.batch
                (resolveTokenMap env.master target (atmOf spot - 500) (atmOf spot + 500)),
              expiry_date := expiry_date, data_source := "live", warning := none }

/-- C2 counterexample -- When the spot fetch fails, the fetcher returns the
simulated snapshot, but its returned dict carries no "warning" key, so the
claimed warning=true is absent. -/
theorem option_chain_fallback_no_warning :
    (get_angel_option_chain ⟨none, [], none⟩ "2025-10-09").data_source = "simulated" ∧
    (get_angel_option_chain ⟨none, [], none⟩ "2025-10-09").warning ≠ some true := by
  constructor <;> simp [get_angel_option_chain, generate_simulated_option_chain]

/-- C2 (amended) -- For every environment and expiry-date input the fetcher
returns a snapshot with status "success" (it never raises), whose source is
either "simulated" or "live"; the source is "simulated" exactly when the spot
fetch fails, the resolution for the requested expiry is empty (which includes
an unparseable expiry string), or the batch price fetch assembles no legs;
the returned dict never carries a "warning" key — the SIMULATED marker is the
data_source field itself. -/
theorem option_chain_fallback_iff (env : ChainEnv) (expiry_date : String) :
    (get_angel_option_chain env expiry_date).status = "success" ∧
    ((get_angel_option_chain env expiry_date).data_source = "simulated" ∨
     (get_angel_option_chain env expiry_date).data_source = "live") ∧
    ((get_angel_option_chain env expiry_date).data_source = "simulated" ↔
      (match env.ltp with
       | none => True
       | some spot =>
           resolveForExpiry env.master expiry_date (atmOf spot) = [] ∨
           buildLiveChain env.batch
             (resolveForExpiry env.master expiry_date (atmOf spot)) = [])) ∧
    (get_angel_option_chain env expiry_date).warning = none := by
  obtain ⟨ltp, master, batch⟩ := env
  rcases ltp with _ | spot
  · simp [get_angel_option_chain, generate_simulated_option_chain]
  · simp only [get_angel_option_chain, resolveForExpiry]
    rcases hp : parseIsoDate expiry_date with _ | target
    · simp [generate_simulated_option_chain]
    · by_cases htm : resolveTokenMap master target (atmOf spot - 500) (atmOf spot + 500) = []
      · simp [htm, generate_simulated_option_chain]
      · by_cases hbc : buildLiveChain batch
            (resolveTokenMap master target (atmOf spot - 500) (atmOf spot + 500)) = []
        · simp [htm, hbc, generate_simulated_option_chain]
        · simp [htm, hbc]

/-! ## Options pricing model (`calculate_options_greeks`, tools.py 421-443)

`scipy.stats.norm.cdf`/`pdf` and the float arithmetic are embedded over ℝ;
the fixed constants of the source are r = 0.065 and sigma = 0.18. -/

open MeasureTheory in
/-- The standard normal CDF `N(x)`. -/
noncomputable def normCdf (x : ℝ) : ℝ :=
  (∫ t in Set.Iic x, Real.exp (-(1/2) * t ^ 2)) / Real.sqrt (2 * Real.pi)

/-- The standard normal PDF. -/
noncomputable def normPdf (x : ℝ) : ℝ :=
  Real.exp (-(1/2) * x ^ 2) / Real.sqrt (2 * Real.pi)

/-- `T = days/365; if T <= 0: T = 0.001`. -/
noncomputable def clampT (t0 : ℝ) : ℝ := if t0 ≤ 0 then 1/1000 else t0

/-- The `d1` of the source, with its hard-coded r = 0.065 and sigma = 0.18. -/
noncomputable def d1val (spot strike : ℝ) (days : ℤ) : ℝ :=
  (Real.log (spot / strike)
      + (65/1000 + (1/2) * (18/100) ^ 2) * clampT ((days : ℝ) / 365))
    / ((18/100) * Real.sqrt (clampT ((days : ℝ) / 365)))

/-- The success dict of `calculate_options_greeks` (delta, gamma, iv). -/
structure GreeksResult where
  status : String
  delta : ℝ
  gamma : ℝ
  iv : ℝ

/-- `calculate_options_greeks` (tools.py 421-443): CALL delta is `N(d1)`, any
other right gets `-N(-d1)`; gamma is `pdf(d1)/(S·sigma·sqrt T)`; the reported
`iv` is the fixed input sigma. -/
noncomputable def calculate_options_greeks (spot strike : ℝ) (days : ℤ)
    (opt_type : String) : GreeksResult :=
  { status := "success"
    delta := if opt_type = "CE" then normCdf (d1val spot strike days)
             else -normCdf (-(d1val spot strike days))
    gamma := normPdf (d1val spot strike days)
      / (spot * (18/100) * Real.sqrt (clampT ((days : ℝ) / 365)))
    iv := 18/100 }

open MeasureTheory in
theorem normCdf_add_normCdf_neg (x : ℝ) : normCdf x + normCdf (-x) = 1 := by
  have hb : (0:ℝ) < 1/2 := by norm_num
  have hint : Integrable (fun t : ℝ => Real.exp (-(1/2) * t ^ 2)) :=
    integrable_exp_neg_mul_sq hb
  have h1 : (∫ t in Set.Iic (-x), Real.exp (-(1/2) * t ^ 2))
      = ∫ t in Set.Ioi x, Real.exp (-(1/2) * t ^ 2) := by
    have h2 := integral_comp_neg_Iic (-x) (fun t : ℝ => Real.exp (-(1/2) * t ^ 2))
    simp only [neg_neg] at h2
    rw [← h2]
    congr 1
    funext t
    ring_nf
  have hsum : (∫ t in Set.Iic x, Real.exp (-(1/2) * t ^ 2))
      + (∫ t in Set.Iic (-x), Real.exp (-(1/2) * t ^ 2)) = Real.sqrt (2 * Real.pi) := by
    rw [h1, intervalIntegral.integral_Iic_add_Ioi hint.integrableOn hint.integrableOn]
    have h3 : Real.pi / (1/2 : ℝ) = 2 * Real.pi := by ring
    rw [integral_gaussian, h3]
  have hpos : (0:ℝ) < Real.sqrt (2 * Real.pi) :=
    Real.sqrt_pos.mpr (by positivity)
  rw [normCdf, normCdf, div_add_div_same, hsum, div_self (ne_of_gt hpos)]

/-- C7 -- For spot and strike in the domain where the float computation
succeeds (both positive), the CALL delta is exactly N(d1) and the PUT delta is
exactly −N(−d1) for the same d1, hence deltaCall − deltaPut = 1 for matching
parameters. -/
theorem greeks_delta_call_put (spot strike : ℝ) (days : ℤ)
    (hS : 0 < spot) (hK : 0 < strike) :
    (calculate_options_greeks spot strike days "CE").delta
      = normCdf (d1val spot strike days) ∧
    (calculate_options_greeks spot strike days "PE").delta
      = -normCdf (-(d1val spot strike days)) ∧
    (calculate_options_greeks spot strike days "CE").delta
      - (calculate_options_greeks spot strike days "PE").delta = 1 := by
  refine ⟨by simp [calculate_options_greeks], by simp [calculate_options_greeks], ?_⟩
  have h := normCdf_add_normCdf_neg (d1val spot strike days)
  simp [calculate_options_greeks]
  linarith

/-- C7 witness -- the delta relation instantiated at the spec's reference
point spot = strike = 24000, 30 days to expiry. -/
theorem greeks_delta_call_put_witness :
    (0:ℝ) < 24000 ∧
    ((calculate_options_greeks 24000 24000 30 "CE").delta
        = normCdf (d1val 24000 24000 30) ∧
     (calculate_options_greeks 24000 24000 30 "PE").delta
        = -normCdf (-(d1val 24000 24000 30)) ∧
     (calculate_options_greeks 24000 24000 30 "CE").delta
        - (calculate_options_greeks 24000 24000 30 "PE").delta = 1) :=
  ⟨by norm_num,
   greeks_delta_call_put 24000 24000 30 (by norm_num) (by norm_num)⟩

end OptiTrade
